import Mathlib

/-!
Shallow embedding of `airflowctl/__main__.py` (the single source file of the
repository `cschristine/airflow_multiple_projects`).

Paths are modelled as lists of path components.  The filesystem is a pair of a
list of existing directories and an association list from file paths to file
contents (newest entry first, so `List.lookup` sees the latest write).
Subprocess invocations, the remote package index, the YAML parser and the
`.env` loader are external effects; they are modelled as explicit parameters
(`World`, `StartWorld`, `PyPIResponse`) and the commands record the external
actions they perform in a trace (`List Action`).  Process termination by
`typer.Exit(code)` / `SystemExit` is the `Outcome.exit` constructor; an
uncaught Python exception is `Outcome.pyError`.
-/

set_option autoImplicit false

namespace Airflowctl

/-- A filesystem path, as its list of components. -/
abbrev FsPath := List String

/-- Render a path the way `os.path.join` renders it on POSIX. -/
def pathStr (p : FsPath) : String := String.intercalate "/" p

/-- Decides whether `d` is a strict prefix of `e`: the entry `e` lives strictly
below the directory `d`. -/
def isStrictUnder : FsPath → FsPath → Bool
  | [], [] => false
  | [], _ :: _ => true
  | _ :: _, [] => false
  | a :: as, b :: bs => a == b && isStrictUnder as bs

/-- A filesystem: existing directories and files (newest write first). -/
structure FS where
  dirs : List FsPath
  files : List (FsPath × String)
deriving Repr

/-- Does directory `p` exist? -/
def FS.dirExists (fs : FS) (p : FsPath) : Bool := fs.dirs.contains p

/-- Latest contents written to file `p`, if the file exists. -/
def FS.readText (fs : FS) (p : FsPath) : Option String := fs.files.lookup p

/-- Does file `p` exist? -/
def FS.fileExists (fs : FS) (p : FsPath) : Bool := (fs.readText p).isSome

/-- `os.path.exists`: true for a directory or a file. -/
def FS.pathExists (fs : FS) (p : FsPath) : Bool := fs.dirExists p || fs.fileExists p

/-- `Path.mkdir(exist_ok=True)`. -/
def FS.mkdir (fs : FS) (p : FsPath) : FS :=
  if fs.dirExists p then fs else { fs with dirs := p :: fs.dirs }

/-- `Path.write_text` / `open(f, "w"); f.write(c)`: truncate and write. -/
def FS.writeText (fs : FS) (p : FsPath) (c : String) : FS :=
  { fs with files := (p, c) :: fs.files }

/-- `Path.touch(exist_ok=True)`: create an empty file when absent. -/
def FS.touch (fs : FS) (p : FsPath) : FS :=
  if fs.fileExists p then fs else fs.writeText p ""

/-- The `if not path.exists(): path.write_text(c)` pattern of `create_project`:
write only when the file is absent. -/
def FS.condWrite (fs : FS) (p : FsPath) (c : String) : FS :=
  if fs.fileExists p then fs else fs.writeText p c

/-- `any(project_dir.iterdir())`: the directory has at least one entry. -/
def FS.dirNonEmpty (fs : FS) (p : FsPath) : Bool :=
  fs.dirs.any (fun d => isStrictUnder p d) || fs.files.any (fun kv => isStrictUnder p kv.1)

/-- `HIDDEN_CONFIG_FILENAME` from the source (declared there, never used). -/
def HIDDEN_CONFIG_FILENAME : String := ".airflowctl/config.yaml"

/-- `SETTINGS_FILENAME` from the source. -/
def SETTINGS_FILENAME : String := "settings.yaml"

/-- The fixed `.gitignore` contents written by `create_project`
(the triple-quoted literal after `.strip()`). -/
def gitignoreContent : String :=
  ".git\nairflow.cfg\nairflow.db\nairflow-webserver.pid\nlogs\n.DS_Store\n__pycache__/\n.env\n.venv\n.airflowctl"

/-- The rendered `settings.yaml` template (the f-string after `.strip()`;
`\x7b\x7d` is a literal brace pair). -/
def settingsTemplate (airflow_version python_version : String) : String :=
  "# Airflow version to be installed\nairflow_version: " ++ airflow_version ++
  "\n# Python version for the project\npython_version: \"" ++ python_version ++
  "\"\n\n# Airflow conn\nconnections: \x7b\x7d\n# Airflow vars\nvariables: \x7b\x7d"

/-- The rendered `.env` template (the f-string after `.strip()`). -/
def envTemplate (project_dir : FsPath) : String :=
  "AIRFLOW_HOME=" ++ pathStr project_dir ++
  "\nAIRFLOW__CORE__LOAD_EXAMPLES=False\nAIRFLOW__CORE__EXECUTOR=LocalExecutor"

/-- The example-DAG copy loop of `create_project`: each bundled file is copied
into `dags_dir` unless a file of that name already exists there. -/
def copyDags (dags_dir : FsPath) (bundled : List (String × String)) (fs : FS) : FS :=
  bundled.foldl
    (fun acc f =>
      if acc.fileExists (dags_dir ++ [f.1]) then acc
      else acc.writeText (dags_dir ++ [f.1]) f.2)
    fs

/-- The body of `create_project` after the non-empty-directory confirmation:
lines 34-98 of the source. -/
def create_project_go (project_dir : FsPath) (airflow_version python_version : String)
    (bundled : List (String × String)) (fs1 : FS) : FS :=
  let dags_dir := project_dir ++ ["dags"]
  let fs2 := fs1.mkdir dags_dir
  let fs3 := copyDags dags_dir bundled fs2
  let fs4 := fs3.mkdir (project_dir ++ ["plugins"])
  let fs5 := fs4.touch (project_dir ++ ["requirements.txt"])
  let fs6 := (fs5.touch (project_dir ++ [".gitignore"])).writeText
    (project_dir ++ [".gitignore"]) gitignoreContent
  let fs7 := fs6.condWrite (project_dir ++ [SETTINGS_FILENAME])
    (settingsTemplate airflow_version python_version)
  fs7.condWrite (project_dir ++ [".env"]) (envTemplate project_dir)

/-- `create_project(project_name, airflow_version, python_version)`.
`bundled` is the content of the packaged `dags/` directory, `confirm` the
answer the user gives to `typer.confirm` when the target directory is
non-empty; `none` is the abort taken on decline. -/
def create_project (project_dir : FsPath) (airflow_version python_version : String)
    (bundled : List (String × String)) (confirm : Bool) (fs0 : FS) : Option FS :=
  let fs1 := fs0.mkdir project_dir
  if fs1.dirNonEmpty project_dir && !confirm then none
  else some (create_project_go project_dir airflow_version python_version bundled fs1)

/-- How an invocation of a command terminates: normally with a value,
by `typer.Exit(code)` / `SystemExit` (a bare `SystemExit()` carries exit
status 0), or by an uncaught Python exception. -/
inductive Outcome (α : Type) where
  | ok (a : α)
  | exit (code : Nat)
  | pyError (exc : String)
deriving Repr, DecidableEq

/-- External actions a command performs, in order. -/
inductive Action where
  | venvRemove (path : FsPath)
  | venvCreate (path : FsPath)
  | runArgs (args : List String)
  | runShell (cmd : String)
deriving Repr, DecidableEq

/-- Is the action a shell command (the form every install command takes)? -/
def Action.isShellCmd : Action → Bool
  | .runShell _ => true
  | _ => false

/-- The possible results of the HTTPS GET against the package index, as the
Python exception semantics distinguishes them: a transport error raises
`httpx.RequestError` inside the `try`; a body that is not valid JSON makes
`response.json()` raise `json.JSONDecodeError`; a JSON body without the
`info`/`version` fields makes the subscription raise `KeyError`; otherwise
the version string is obtained. -/
inductive PyPIResponse where
  | requestError
  | invalidJson
  | missingField
  | version (v : String)
deriving Repr, DecidableEq

/-- `get_latest_airflow_version`: the `except` clause catches only
`httpx.RequestError` and `KeyError`, so a `json.JSONDecodeError` from an
invalid JSON body propagates out as an uncaught exception. -/
def get_latest_airflow_version (resp : PyPIResponse) : Outcome String :=
  match resp with
  | .version v => .ok v
  | .missingField => .ok "2.7.0"
  | .requestError => .ok "2.7.0"
  | .invalidJson => .pyError "json.JSONDecodeError"

/-- A parsed YAML document, as the flat key-value mapping the tool reads. -/
abbrev Config := List (String × String)

/-- The effect of `venv.create(venv_path, with_pip=True)` on the filesystem. -/
def venvCreateFS (fs : FS) (p : FsPath) : FS :=
  ((fs.mkdir p).mkdir (p ++ ["bin"])).writeText (p ++ ["bin", "python"]) "#!interpreter"

/-- `shutil.rmtree`: remove `p` and everything below it. -/
def FS.removeTree (fs : FS) (p : FsPath) : FS :=
  { dirs := fs.dirs.filter (fun d => !(d == p) && !(isStrictUnder p d)),
    files := fs.files.filter (fun kv => !(kv.1 == p) && !(isStrictUnder p kv.1)) }

/-- `verify_or_create_venv(venv_path, recreate)`, returning the trace of
external actions and either the updated filesystem with the resolved path or
the bare `SystemExit()` taken when the path exists without an interpreter. -/
def verify_or_create_venv (venv_path : FsPath) (recreate : Bool) (fs : FS) :
    List Action × Outcome (FS × FsPath) :=
  let removed := recreate && fs.pathExists venv_path
  let tr1 : List Action := if removed then [Action.venvRemove venv_path] else []
  let fs1 := if removed then fs.removeTree venv_path else fs
  if fs1.pathExists venv_path && !fs1.fileExists (venv_path ++ ["bin", "python"]) then
    (tr1, .exit 0)
  else if !fs1.pathExists venv_path then
    (tr1 ++ [Action.venvCreate venv_path], .ok (venvCreateFS fs1 venv_path, venv_path))
  else
    (tr1, .ok (fs1, venv_path))

/-- The external state `build` runs against: the filesystem, the YAML parser,
the exit status of `<venv>/bin/python -m airflow version` per venv path, and
the exit status of an arbitrary shell command. -/
structure World where
  fs : FS
  parse : String → Config
  airflowVersionExit : FsPath → Nat
  shellExit : String → Nat

/-- `is_airflow_installed(venv_path)`: false when the interpreter is missing,
otherwise whether `python -m airflow version` exits 0. -/
def is_airflow_installed (w : World) (venv_path : FsPath) : Bool :=
  if w.fs.fileExists (venv_path ++ ["bin", "python"]) then
    w.airflowVersionExit venv_path == 0
  else false

/-- `install_airflow(version, venv_path, constraints_url, extras, requirements)`.
The trace records the `airflow version` probe and, when installation proceeds,
the composed shell install command (`\x27` is a literal single quote). -/
def install_airflow (version : String) (venv_path : FsPath)
    (constraints_url extras requirements : String) (w : World) :
    List Action × Outcome Unit :=
  let venv_bin_python := venv_path ++ ["bin", "python"]
  let checkTrace : List Action :=
    if w.fs.fileExists venv_bin_python then
      [Action.runArgs [pathStr venv_bin_python, "-m", "airflow", "version"]]
    else []
  if is_airflow_installed w venv_path then
    (checkTrace, .ok ())
  else if !w.fs.fileExists venv_bin_python then
    (checkTrace, .exit 0)
  else
    let upgrade_pipeline_command :=
      pathStr venv_bin_python ++ " -m pip install --upgrade pip setuptools wheel"
    let base_command :=
      upgrade_pipeline_command ++ " && " ++ pathStr venv_bin_python ++
      " -m pip install \x27apache-airflow==" ++ version ++ extras ++
      "\x27 --constraint " ++ constraints_url
    let install_command :=
      if requirements ≠ "" then base_command ++ " -r " ++ requirements
      else base_command
    if w.shellExit install_command == 0 then
      (checkTrace ++ [Action.runShell install_command], .ok ())
    else
      (checkTrace ++ [Action.runShell install_command], .exit 0)

/-- `_get_conf_or_raise(key, settings)`: `typer.Exit(1)` when the key is
absent from the parsed document. -/
def _get_conf_or_raise (key : String) (settings : Config) : Outcome String :=
  match settings.lookup key with
  | none => .exit 1
  | some v => .ok v

/-- The `build` command.  Mirrors the source line by line: the existence guard
tests `project_path / SETTINGS_FILENAME` (not the `--settings-file` option),
then `open(settings_file)` raises an uncaught `FileNotFoundError` when that
option names a missing file; both required keys are read before any venv
work; the venv step and the install step contribute their traces. -/
def build (project_path settings_file venv_path : FsPath) (recreate_venv : Bool)
    (w : World) : List Action × Outcome Unit :=
  if w.fs.fileExists (project_path ++ [SETTINGS_FILENAME]) then
    match w.fs.readText settings_file with
    | none => ([], .pyError "FileNotFoundError")
    | some contents =>
      let config := w.parse contents
      match _get_conf_or_raise "airflow_version" config with
      | .exit c => ([], .exit c)
      | .pyError e => ([], .pyError e)
      | .ok airflow_version =>
        match _get_conf_or_raise "python_version" config with
        | .exit c => ([], .exit c)
        | .pyError e => ([], .pyError e)
        | .ok python_version =>
          let constraints_url :=
            "https://raw.githubusercontent.com/apache/airflow/constraints-" ++
            airflow_version ++ "/constraints-" ++ python_version ++ ".txt"
          match verify_or_create_venv venv_path recreate_venv w.fs with
          | (tr, .exit c) => (tr, .exit c)
          | (tr, .pyError e) => (tr, .pyError e)
          | (tr, .ok (fs2, resolved)) =>
            let w2 : World := { w with fs := fs2 }
            match install_airflow airflow_version resolved constraints_url "" "" w2 with
            | (tr2, .ok _) => (tr ++ tr2, .ok ())
            | (tr2, .exit c) => (tr ++ tr2, .exit c)
            | (tr2, .pyError e) => (tr ++ tr2, .pyError e)
  else ([], .exit 1)

/-- The external state `start` runs against: the filesystem, the YAML parser,
whether `load_dotenv` succeeds, `os.name`, and shell command exit statuses. -/
structure StartWorld where
  fs : FS
  parse : String → Config
  dotenvOk : Bool
  osName : String
  shellExit : String → Nat

/-- `source_env_file(env_file)`: any exception becomes `typer.Exit(1)`. -/
def source_env_file (dotenvOk : Bool) : Outcome Unit :=
  if dotenvOk then .ok () else .exit 1

/-- `activate_virtualenv(venv_path)`: the activation command per `os.name`,
`typer.Exit(1)` on an unsupported operating system. -/
def activate_virtualenv (osName : String) (venv_path : String) : Outcome String :=
  if osName == "posix" then .ok ("source " ++ venv_path ++ "/bin/activate")
  else if osName == "nt" then .ok ("call " ++ venv_path ++ "\\Scripts\\activate")
  else .exit 1

/-- Python renders the result of `dict.get` into an f-string: a missing key
gives the text `None`. -/
def optText : Option String → String
  | none => "None"
  | some s => s

/-- The `start` command.  Note the venv-path resolution uses `config.get`,
which never fails on a missing key: absent `airflow_version` /
`python_version` are rendered as `None` inside the default path. -/
def start (project_path : FsPath) (w : StartWorld) : List Action × Outcome Unit :=
  if w.fs.fileExists (project_path ++ ["config.yaml"]) then
    if w.fs.fileExists (project_path ++ [".env"]) then
      match w.fs.readText (project_path ++ ["config.yaml"]) with
      | none => ([], .pyError "FileNotFoundError")
      | some contents =>
        let config := w.parse contents
        match source_env_file w.dotenvOk with
        | .exit c => ([], .exit c)
        | .pyError e => ([], .pyError e)
        | .ok _ =>
          let venv_path :=
            match config.lookup "venv_path" with
            | some v => v
            | none =>
              pathStr project_path ++ "/.venv/airflow_" ++
              optText (config.lookup "airflow_version") ++ "_py" ++
              optText (config.lookup "python_version")
          match activate_virtualenv w.osName venv_path with
          | .exit c => ([], .exit c)
          | .pyError e => ([], .pyError e)
          | .ok activate_cmd =>
            let cmd := activate_cmd ++ " && airflow standalone"
            if w.shellExit cmd == 0 then ([Action.runShell cmd], .ok ())
            else ([Action.runShell cmd], .exit 1)
    else ([], .exit 1)
  else ([], .exit 1)

/-! ### Lemmas about the filesystem operations -/

theorem FS.files_mkdir (fs : FS) (p : FsPath) : (fs.mkdir p).files = fs.files := by
  unfold FS.mkdir
  split <;> rfl

theorem FS.readText_mkdir (fs : FS) (p q : FsPath) :
    (fs.mkdir p).readText q = fs.readText q := by
  unfold FS.readText
  rw [FS.files_mkdir]

theorem FS.fileExists_mkdir (fs : FS) (p q : FsPath) :
    (fs.mkdir p).fileExists q = fs.fileExists q := by
  unfold FS.fileExists
  rw [FS.readText_mkdir]

theorem FS.dirExists_mkdir (fs : FS) (p q : FsPath) :
    (fs.mkdir p).dirExists q = (q == p || fs.dirExists q) := by
  unfold FS.mkdir FS.dirExists
  split
  · rename_i h
    rcases hqp : q == p with _ | _
    · simp
    · simp only [Bool.true_or]
      have : q = p := by simpa using hqp
      subst this
      exact h
  · rcases hqp : q == p with _ | _
    · have : ¬ q = p := by simpa using hqp
      simp [List.contains_cons, hqp, this]
    · have : q = p := by simpa using hqp
      simp [List.contains_cons, hqp, this]

theorem FS.dirs_writeText (fs : FS) (p : FsPath) (c : String) :
    (fs.writeText p c).dirs = fs.dirs := rfl

theorem FS.dirExists_writeText (fs : FS) (p : FsPath) (c : String) (q : FsPath) :
    (fs.writeText p c).dirExists q = fs.dirExists q := rfl

theorem FS.readText_writeText (fs : FS) (p : FsPath) (c : String) (q : FsPath) :
    (fs.writeText p c).readText q = if q = p then some c else fs.readText q := by
  unfold FS.readText FS.writeText
  rcases hqp : q == p with _ | _
  · have : ¬ q = p := by simpa using hqp
    simp [List.lookup, hqp, this]
  · have : q = p := by simpa using hqp
    simp [List.lookup, hqp, this]

theorem FS.readText_writeText_self (fs : FS) (p : FsPath) (c : String) :
    (fs.writeText p c).readText p = some c := by
  rw [FS.readText_writeText]
  simp

theorem FS.readText_writeText_ne (fs : FS) (p : FsPath) (c : String) (q : FsPath)
    (h : q ≠ p) : (fs.writeText p c).readText q = fs.readText q := by
  rw [FS.readText_writeText, if_neg h]

theorem FS.fileExists_writeText (fs : FS) (p : FsPath) (c : String) (q : FsPath) :
    (fs.writeText p c).fileExists q = (q == p || fs.fileExists q) := by
  unfold FS.fileExists
  rw [FS.readText_writeText]
  rcases hqp : q == p with _ | _
  · have : ¬ q = p := by simpa using hqp
    simp [this]
  · have : q = p := by simpa using hqp
    simp [this]

theorem FS.dirExists_touch (fs : FS) (p q : FsPath) :
    (fs.touch p).dirExists q = fs.dirExists q := by
  unfold FS.touch
  split <;> rfl

theorem FS.fileExists_touch (fs : FS) (p q : FsPath) :
    (fs.touch p).fileExists q = (q == p || fs.fileExists q) := by
  unfold FS.touch
  split
  · rename_i h
    rcases hqp : q == p with _ | _
    · simp
    · have : q = p := by simpa using hqp
      subst this
      simp [h]
  · rw [FS.fileExists_writeText]

theorem FS.readText_touch_ne (fs : FS) (p q : FsPath) (h : q ≠ p) :
    (fs.touch p).readText q = fs.readText q := by
  unfold FS.touch
  split
  · rfl
  · exact FS.readText_writeText_ne fs p "" q h

theorem FS.dirExists_condWrite (fs : FS) (p : FsPath) (c : String) (q : FsPath) :
    (fs.condWrite p c).dirExists q = fs.dirExists q := by
  unfold FS.condWrite
  split <;> rfl

theorem FS.fileExists_condWrite (fs : FS) (p : FsPath) (c : String) (q : FsPath) :
    (fs.condWrite p c).fileExists q = (q == p || fs.fileExists q) := by
  unfold FS.condWrite
  split
  · rename_i h
    rcases hqp : q == p with _ | _
    · simp
    · have : q = p := by simpa using hqp
      subst this
      simp [h]
  · rw [FS.fileExists_writeText]

theorem FS.readText_condWrite_ne (fs : FS) (p : FsPath) (c : String) (q : FsPath)
    (h : q ≠ p) : (fs.condWrite p c).readText q = fs.readText q := by
  unfold FS.condWrite
  split
  · rfl
  · exact FS.readText_writeText_ne fs p c q h

theorem FS.condWrite_of_fileExists (fs : FS) (p : FsPath) (c : String)
    (h : fs.fileExists p = true) : fs.condWrite p c = fs := by
  unfold FS.condWrite
  rw [if_pos h]

theorem copyDags_cons (d : FsPath) (f : String × String) (t : List (String × String))
    (fs : FS) :
    copyDags d (f :: t) fs =
      copyDags d t
        (if fs.fileExists (d ++ [f.1]) then fs else fs.writeText (d ++ [f.1]) f.2) := rfl

theorem copyDags_dirs (d : FsPath) (l : List (String × String)) (fs : FS) :
    (copyDags d l fs).dirs = fs.dirs := by
  induction l generalizing fs with
  | nil => rfl
  | cons f t ih =>
    rw [copyDags_cons]
    split
    · exact ih fs
    · rw [ih _, FS.dirs_writeText]

theorem copyDags_dirExists (d : FsPath) (l : List (String × String)) (fs : FS)
    (q : FsPath) : (copyDags d l fs).dirExists q = fs.dirExists q := by
  unfold FS.dirExists
  rw [copyDags_dirs]

theorem copyDags_fileExists_mono (d : FsPath) (l : List (String × String)) (fs : FS)
    (q : FsPath) (h : fs.fileExists q = true) :
    (copyDags d l fs).fileExists q = true := by
  induction l generalizing fs with
  | nil => exact h
  | cons f t ih =>
    rw [copyDags_cons]
    split
    · exact ih fs h
    · refine ih _ ?_
      rw [FS.fileExists_writeText, h, Bool.or_true]

theorem copyDags_readText_of_fileExists (d : FsPath) (l : List (String × String))
    (fs : FS) (q : FsPath) (h : fs.fileExists q = true) :
    (copyDags d l fs).readText q = fs.readText q := by
  induction l generalizing fs with
  | nil => rfl
  | cons f t ih =>
    rw [copyDags_cons]
    split
    · exact ih fs h
    · rename_i habs
      have hne : q ≠ d ++ [f.1] := by
        intro hc
        rw [hc] at h
        exact habs h
      have hex : (fs.writeText (d ++ [f.1]) f.2).fileExists q = true := by
        rw [FS.fileExists_writeText, h, Bool.or_true]
      rw [ih _ hex, FS.readText_writeText_ne _ _ _ _ hne]

theorem append_singleton_ne (pd : FsPath) (a b : String) (h : a ≠ b) :
    pd ++ [a] ≠ pd ++ [b] := by
  intro hc
  exact h (by simpa using List.append_cancel_left hc)

/-- Any file that exists before `create_project_go` runs and is neither the
`requirements.txt` path nor the `.gitignore` path keeps its exact contents:
the only unconditional writes are those two touches plus the `.gitignore`
rewrite, and `settings.yaml` / `.env` are written through `condWrite`. -/
theorem go_preserves_readText (pd : FsPath) (av pv : String)
    (b : List (String × String)) (fs1 : FS) (q : FsPath) (c : String)
    (hq : fs1.readText q = some c)
    (hRP : q ≠ pd ++ ["requirements.txt"]) (hGP : q ≠ pd ++ [".gitignore"]) :
    (create_project_go pd av pv b fs1).readText q = some c := by
  have hx1 : fs1.fileExists q = true := by rw [FS.fileExists, hq]; rfl
  simp only [create_project_go]
  set f2 := fs1.mkdir (pd ++ ["dags"]) with hf2
  set f3 := copyDags (pd ++ ["dags"]) b f2 with hf3
  set f4 := f3.mkdir (pd ++ ["plugins"]) with hf4
  set f5 := f4.touch (pd ++ ["requirements.txt"]) with hf5
  set f6 := (f5.touch (pd ++ [".gitignore"])).writeText (pd ++ [".gitignore"])
    gitignoreContent with hf6
  set f7 := f6.condWrite (pd ++ [SETTINGS_FILENAME]) (settingsTemplate av pv) with hf7
  have h2 : f2.readText q = some c := by rw [hf2, FS.readText_mkdir]; exact hq
  have hx2 : f2.fileExists q = true := by rw [hf2, FS.fileExists_mkdir]; exact hx1
  have h3 : f3.readText q = some c := by
    rw [hf3, copyDags_readText_of_fileExists _ _ _ _ hx2]; exact h2
  have hx3 : f3.fileExists q = true := by
    rw [hf3]; exact copyDags_fileExists_mono _ _ _ _ hx2
  have h4 : f4.readText q = some c := by rw [hf4, FS.readText_mkdir]; exact h3
  have hx4 : f4.fileExists q = true := by rw [hf4, FS.fileExists_mkdir]; exact hx3
  have h5 : f5.readText q = some c := by
    rw [hf5, FS.readText_touch_ne _ _ _ hRP]; exact h4
  have hx5 : f5.fileExists q = true := by
    rw [hf5, FS.fileExists_touch, hx4, Bool.or_true]
  have h6 : f6.readText q = some c := by
    rw [hf6, FS.readText_writeText_ne _ _ _ _ hGP, FS.readText_touch_ne _ _ _ hGP]
    exact h5
  have hx6 : f6.fileExists q = true := by
    rw [hf6, FS.fileExists_writeText, FS.fileExists_touch, hx5]
    simp
  have h7 : f7.readText q = some c := by
    by_cases hSP : q = pd ++ [SETTINGS_FILENAME]
    · rw [hf7, ← hSP, FS.condWrite_of_fileExists _ _ _ (hSP ▸ hx6)]
      exact h6
    · rw [hf7, FS.readText_condWrite_ne _ _ _ _ hSP]; exact h6
  have hx7 : f7.fileExists q = true := by
    rw [hf7, FS.fileExists_condWrite, hx6, Bool.or_true]
  by_cases hEP : q = pd ++ [".env"]
  · rw [← hEP, FS.condWrite_of_fileExists _ _ _ (hEP ▸ hx7)]
    exact h7
  · rw [FS.readText_condWrite_ne _ _ _ _ hEP]
    exact h7

/-- Claim C1: for every invocation of `init` whose target directory is empty
(or newly created) and which completes without error, the project directory
afterwards contains all six artifacts: `dags/`, `plugins/`, `settings.yaml`,
`.env`, `.gitignore` and `requirements.txt`. -/
theorem C1_init_creates_all_artifacts (project_dir : FsPath)
    (airflow_version python_version : String) (bundled : List (String × String))
    (confirm : Bool) (fs0 : FS)
    (hempty : (fs0.mkdir project_dir).dirNonEmpty project_dir = false) :
    ∃ fs, create_project project_dir airflow_version python_version bundled confirm fs0
        = some fs ∧
      fs.dirExists (project_dir ++ ["dags"]) = true ∧
      fs.dirExists (project_dir ++ ["plugins"]) = true ∧
      fs.fileExists (project_dir ++ ["settings.yaml"]) = true ∧
      fs.fileExists (project_dir ++ [".env"]) = true ∧
      fs.fileExists (project_dir ++ [".gitignore"]) = true ∧
      fs.fileExists (project_dir ++ ["requirements.txt"]) = true := by
  refine ⟨create_project_go project_dir airflow_version python_version bundled
    (fs0.mkdir project_dir), ?_, ?_, ?_, ?_, ?_, ?_, ?_⟩
  · simp [create_project, hempty]
  · simp [create_project_go, FS.dirExists_condWrite, FS.dirExists_writeText,
      FS.dirExists_touch, copyDags_dirExists, FS.dirExists_mkdir]
  · simp [create_project_go, FS.dirExists_condWrite, FS.dirExists_writeText,
      FS.dirExists_touch, copyDags_dirExists, FS.dirExists_mkdir]
  · simp [create_project_go, SETTINGS_FILENAME, FS.fileExists_condWrite,
      FS.fileExists_writeText, FS.fileExists_touch, FS.fileExists_mkdir]
  · simp [create_project_go, FS.fileExists_condWrite, FS.fileExists_writeText,
      FS.fileExists_touch, FS.fileExists_mkdir]
  · simp [create_project_go, FS.fileExists_condWrite, FS.fileExists_writeText,
      FS.fileExists_touch, FS.fileExists_mkdir]
  · simp [create_project_go, FS.fileExists_condWrite, FS.fileExists_writeText,
      FS.fileExists_touch, FS.fileExists_mkdir]

/-- Witness for C1 at a concrete input: an empty filesystem. -/
theorem C1_init_creates_all_artifacts_witness :
    ((FS.mk [] []).mkdir ["p"]).dirNonEmpty ["p"] = false ∧
    (∃ fs, create_project ["p"] "2.7.0" "3.11" [] false (FS.mk [] []) = some fs ∧
      fs.dirExists (["p"] ++ ["dags"]) = true ∧
      fs.dirExists (["p"] ++ ["plugins"]) = true ∧
      fs.fileExists (["p"] ++ ["settings.yaml"]) = true ∧
      fs.fileExists (["p"] ++ [".env"]) = true ∧
      fs.fileExists (["p"] ++ [".gitignore"]) = true ∧
      fs.fileExists (["p"] ++ ["requirements.txt"]) = true) :=
  ⟨rfl, C1_init_creates_all_artifacts ["p"] "2.7.0" "3.11" [] false (FS.mk [] []) rfl⟩

/-- Claim C3: when `settings.yaml` and `.env` both already exist in the
project directory, a completing re-run of `init` leaves the contents of both
files exactly unchanged. -/
theorem C3_reinit_preserves_settings_and_env (project_dir : FsPath)
    (airflow_version python_version : String) (bundled : List (String × String))
    (confirm : Bool) (fs0 fs : FS) (s e : String)
    (hs : fs0.readText (project_dir ++ ["settings.yaml"]) = some s)
    (he : fs0.readText (project_dir ++ [".env"]) = some e)
    (hrun : create_project project_dir airflow_version python_version bundled confirm fs0
      = some fs) :
    fs.readText (project_dir ++ ["settings.yaml"]) = some s ∧
    fs.readText (project_dir ++ [".env"]) = some e := by
  simp only [create_project] at hrun
  split at hrun
  · exact absurd hrun (by simp)
  · have hfs : fs = create_project_go project_dir airflow_version python_version bundled
        (fs0.mkdir project_dir) := by
      injection hrun with h
      exact h.symm
    subst hfs
    constructor
    · refine go_preserves_readText _ _ _ _ _ _ _ ?_ ?_ ?_
      · rw [FS.readText_mkdir]; exact hs
      · exact append_singleton_ne _ _ _ (by decide)
      · exact append_singleton_ne _ _ _ (by decide)
    · refine go_preserves_readText _ _ _ _ _ _ _ ?_ ?_ ?_
      · rw [FS.readText_mkdir]; exact he
      · exact append_singleton_ne _ _ _ (by decide)
      · exact append_singleton_ne _ _ _ (by decide)

/-- Witness for C3 at a concrete input: a project with pre-existing
`settings.yaml` contents `"S"` and `.env` contents `"E"`. -/
theorem C3_reinit_preserves_settings_and_env_witness :
    (FS.mk [["p"]] [(["p", "settings.yaml"], "S"), (["p", ".env"], "E")]).readText
        (["p"] ++ ["settings.yaml"]) = some "S" ∧
    (FS.mk [["p"]] [(["p", "settings.yaml"], "S"), (["p", ".env"], "E")]).readText
        (["p"] ++ [".env"]) = some "E" ∧
    (((create_project ["p"] "2.8.1" "3.12" []
        true (FS.mk [["p"]] [(["p", "settings.yaml"], "S"), (["p", ".env"], "E")])).getD
          (FS.mk [] [])).readText (["p"] ++ ["settings.yaml"]) = some "S" ∧
      ((create_project ["p"] "2.8.1" "3.12" []
        true (FS.mk [["p"]] [(["p", "settings.yaml"], "S"), (["p", ".env"], "E")])).getD
          (FS.mk [] [])).readText (["p"] ++ [".env"]) = some "E") :=
  ⟨rfl, rfl,
    C3_reinit_preserves_settings_and_env ["p"] "2.8.1" "3.12" [] true
      (FS.mk [["p"]] [(["p", "settings.yaml"], "S"), (["p", ".env"], "E")]) _ "S" "E"
      rfl rfl rfl⟩

/-- Claim C9: every completing run of `init` leaves `.gitignore` holding
exactly the fixed ignore list, regardless of any pre-existing contents: the
file is truncated and rewritten unconditionally. -/
theorem C9_gitignore_always_rewritten (project_dir : FsPath)
    (airflow_version python_version : String) (bundled : List (String × String))
    (confirm : Bool) (fs0 fs : FS)
    (hrun : create_project project_dir airflow_version python_version bundled confirm fs0
      = some fs) :
    fs.readText (project_dir ++ [".gitignore"]) = some gitignoreContent := by
  simp only [create_project] at hrun
  split at hrun
  · exact absurd hrun (by simp)
  · have hfs : fs = create_project_go project_dir airflow_version python_version bundled
        (fs0.mkdir project_dir) := by
      injection hrun with h
      exact h.symm
    subst hfs
    simp only [create_project_go]
    rw [FS.readText_condWrite_ne _ _ _ _ (append_singleton_ne _ _ _ (by decide)),
      FS.readText_condWrite_ne _ _ _ _ (append_singleton_ne _ _ _ (by decide)),
      FS.readText_writeText_self]

/-- Witness for C9 at a concrete input: a project whose `.gitignore` held
`"OLD"` before the re-run. -/
theorem C9_gitignore_always_rewritten_witness :
    ((create_project ["p"] "2.7.0" "3.11" []
        true (FS.mk [["p"]] [(["p", ".gitignore"], "OLD")])).getD
          (FS.mk [] [])).readText (["p"] ++ [".gitignore"]) = some gitignoreContent :=
  C9_gitignore_always_rewritten ["p"] "2.7.0" "3.11" [] true
    (FS.mk [["p"]] [(["p", ".gitignore"], "OLD")]) _ rfl

/-- Claim C2: in a virtual environment whose Airflow version command exits
zero (`is_airflow_installed` true), `install_airflow` returns normally and
its trace contains no shell install command — a second `build` performs no
reinstall. -/
theorem C2_install_skips_when_installed (version : String) (venv_path : FsPath)
    (constraints_url extras requirements : String) (w : World)
    (hinst : is_airflow_installed w venv_path = true) :
    (install_airflow version venv_path constraints_url extras requirements w).1.all
      (fun a => !a.isShellCmd) = true ∧
    (install_airflow version venv_path constraints_url extras requirements w).2
      = Outcome.ok () := by
  simp only [install_airflow, hinst, if_true]
  constructor
  · split <;> rfl
  · trivial

/-- The world of C2/C10 witnesses: a venv with an interpreter in which
`python -m airflow version` exits 0. -/
def installedWorld : World :=
  ⟨⟨[], [(["v", "bin", "python"], "x")]⟩, fun _ => [], fun _ => 0, fun _ => 1⟩

/-- Witness for C2 at a concrete input. -/
theorem C2_install_skips_when_installed_witness :
    is_airflow_installed installedWorld ["v"] = true ∧
    (install_airflow "2.7.0" ["v"] "CU" "" "" installedWorld).1.all
      (fun a => !a.isShellCmd) = true ∧
    (install_airflow "2.7.0" ["v"] "CU" "" "" installedWorld).2 = Outcome.ok () :=
  ⟨rfl, (C2_install_skips_when_installed "2.7.0" ["v"] "CU" "" "" installedWorld rfl).1,
    (C2_install_skips_when_installed "2.7.0" ["v"] "CU" "" "" installedWorld rfl).2⟩

/-- Claim C10 (implicit): `install_airflow` skips whenever any Airflow is
runnable in the venv, regardless of the requested version: the skip decision
and the whole result are identical for any two requested versions (and
`is_airflow_installed` does not even receive the requested version). -/
theorem C10_install_skip_ignores_requested_version (v1 v2 : String)
    (venv_path : FsPath) (c1 c2 e1 e2 r1 r2 : String) (w : World)
    (hinst : is_airflow_installed w venv_path = true) :
    install_airflow v1 venv_path c1 e1 r1 w = install_airflow v2 venv_path c2 e2 r2 w ∧
    (install_airflow v1 venv_path c1 e1 r1 w).2 = Outcome.ok () := by
  simp only [install_airflow, hinst, if_true]
  exact ⟨trivial, trivial⟩

/-- Witness for C10 at a concrete input: the installed world with two different
requested versions. -/
theorem C10_install_skip_ignores_requested_version_witness :
    is_airflow_installed installedWorld ["v"] = true ∧
    install_airflow "2.5.0" ["v"] "CU1" "" "" installedWorld =
      install_airflow "2.9.9" ["v"] "CU2" "" "" installedWorld ∧
    (install_airflow "2.5.0" ["v"] "CU1" "" "" installedWorld).2 = Outcome.ok () :=
  ⟨rfl,
    (C10_install_skip_ignores_requested_version "2.5.0" "2.9.9" ["v"] "CU1" "CU2"
      "" "" "" "" installedWorld rfl).1,
    (C10_install_skip_ignores_requested_version "2.5.0" "2.9.9" ["v"] "CU1" "CU2"
      "" "" "" "" installedWorld rfl).2⟩

/-- A `start` world whose `config.yaml` exists but parses to a document with
no keys at all, with a healthy shell. -/
def noKeysStartWorld : StartWorld :=
  ⟨⟨[], [(["p", "config.yaml"], "x"), (["p", ".env"], "y")]⟩, fun _ => [], true,
    "posix", fun _ => 0⟩

/-- Counterexample to claim C4: the document read by `start` lacks both
`airflow_version` and `python_version`, yet `start` does not fail — it spawns
the standalone server with the text `None` substituted into the default venv
path, and terminates normally. -/
theorem C4_counterexample_start_proceeds_without_keys :
    (noKeysStartWorld.parse "x").lookup "airflow_version" = none ∧
    (noKeysStartWorld.parse "x").lookup "python_version" = none ∧
    start ["p"] noKeysStartWorld =
      ([Action.runShell
          "source p/.venv/airflow_None_pyNone/bin/activate && airflow standalone"],
        Outcome.ok ()) :=
  ⟨rfl, rfl, rfl⟩

/-- Claim C4 as amended: the settings document read by `build` must contain
`airflow_version` and `python_version` or `build` exits 1 (the `start`
command performs no such validation; see the counterexample). -/
theorem C4_amended_build_requires_version_keys
    (project_path settings_file venv_path : FsPath) (recreate_venv : Bool)
    (w : World) (contents : String)
    (hread : w.fs.readText settings_file = some contents)
    (hmiss : (w.parse contents).lookup "airflow_version" = none ∨
      (w.parse contents).lookup "python_version" = none) :
    build project_path settings_file venv_path recreate_venv w = ([], Outcome.exit 1) := by
  unfold build
  split
  · rw [hread]
    rcases hmiss with h | h
    · simp [_get_conf_or_raise, h]
    · rcases hfst : (w.parse contents).lookup "airflow_version" with _ | av
      · simp [_get_conf_or_raise, hfst]
      · simp [_get_conf_or_raise, hfst, h]
  · rfl

/-- A `build` world whose settings file exists and parses to an empty
document. -/
def emptySettingsWorld : World :=
  ⟨⟨[], [(["p", "settings.yaml"], "x")]⟩, fun _ => [], fun _ => 1, fun _ => 1⟩

/-- Witness for the amended C4 at a concrete input. -/
theorem C4_amended_build_requires_version_keys_witness :
    emptySettingsWorld.fs.readText ["p", "settings.yaml"] = some "x" ∧
    (emptySettingsWorld.parse "x").lookup "airflow_version" = none ∧
    build ["p"] ["p", "settings.yaml"] ["v"] false emptySettingsWorld
      = ([], Outcome.exit 1) :=
  ⟨rfl, rfl,
    C4_amended_build_requires_version_keys ["p"] ["p", "settings.yaml"] ["v"] false
      emptySettingsWorld "x" rfl (Or.inl rfl)⟩

/-- Counterexample to claim C5: on a response body that is not valid JSON
(a parse failure), `get_latest_airflow_version` raises an uncaught
`json.JSONDecodeError` — it does not return the fallback `"2.7.0"`. -/
theorem C5_counterexample_invalid_json_raises :
    get_latest_airflow_version PyPIResponse.invalidJson =
      Outcome.pyError "json.JSONDecodeError" ∧
    get_latest_airflow_version PyPIResponse.invalidJson ≠ Outcome.ok "2.7.0" :=
  ⟨rfl, by decide⟩

/-- Claim C5 as amended: `get_latest_airflow_version` returns the
index-reported version when the request succeeds and the version field is
present, returns the fixed (non-empty) fallback `"2.7.0"` on network failure
(`httpx.RequestError`) or on a missing field (`KeyError`), and raises an
uncaught `json.JSONDecodeError` when the response body is not valid JSON. -/
theorem C5_amended_version_resolver (v : String) :
    get_latest_airflow_version (PyPIResponse.version v) = Outcome.ok v ∧
    get_latest_airflow_version PyPIResponse.requestError = Outcome.ok "2.7.0" ∧
    get_latest_airflow_version PyPIResponse.missingField = Outcome.ok "2.7.0" ∧
    get_latest_airflow_version PyPIResponse.invalidJson =
      Outcome.pyError "json.JSONDecodeError" :=
  ⟨rfl, rfl, rfl, rfl⟩

/-- Claim C6: when the settings file exists but its document lacks
`airflow_version`, `build` terminates with exit code 1 and an empty action
trace — in particular `verify_or_create_venv` never runs, so no virtual
environment is created. -/
theorem C6_build_missing_airflow_version_creates_no_venv
    (project_path settings_file venv_path : FsPath) (recreate_venv : Bool)
    (w : World) (contents : String)
    (hread : w.fs.readText settings_file = some contents)
    (hmiss : (w.parse contents).lookup "airflow_version" = none) :
    build project_path settings_file venv_path recreate_venv w = ([], Outcome.exit 1) := by
  unfold build
  split
  · rw [hread]
    simp [_get_conf_or_raise, hmiss]
  · rfl

/-- Witness for C6 at a concrete input. -/
theorem C6_build_missing_airflow_version_creates_no_venv_witness :
    emptySettingsWorld.fs.readText ["p", "settings.yaml"] = some "x" ∧
    (emptySettingsWorld.parse "x").lookup "airflow_version" = none ∧
    build ["p"] ["p", "settings.yaml"] ["w"] true emptySettingsWorld
      = ([], Outcome.exit 1) :=
  ⟨rfl, rfl,
    C6_build_missing_airflow_version_creates_no_venv ["p"] ["p", "settings.yaml"]
      ["w"] true emptySettingsWorld "x" rfl rfl⟩

/-- Claim C7: when no `config.yaml` exists at the project path, `start`
terminates with exit code 1 and an empty action trace — no child process is
spawned. -/
theorem C7_start_without_config_spawns_nothing (project_path : FsPath)
    (w : StartWorld)
    (h : w.fs.fileExists (project_path ++ ["config.yaml"]) = false) :
    start project_path w = ([], Outcome.exit 1) := by
  unfold start
  simp [h]

/-- Witness for C7 at a concrete input: an empty filesystem. -/
theorem C7_start_without_config_spawns_nothing_witness :
    (StartWorld.mk (FS.mk [] []) (fun _ => []) true "posix" (fun _ => 0)).fs.fileExists
      (["p"] ++ ["config.yaml"]) = false ∧
    start ["p"] (StartWorld.mk (FS.mk [] []) (fun _ => []) true "posix" (fun _ => 0))
      = ([], Outcome.exit 1) :=
  ⟨rfl,
    C7_start_without_config_spawns_nothing ["p"]
      (StartWorld.mk (FS.mk [] []) (fun _ => []) true "posix" (fun _ => 0)) rfl⟩

/-- A `build` world where `project_path/settings.yaml` exists but the file
named by `--settings-file` does not. -/
def mismatchedSettingsWorld : World :=
  ⟨⟨[], [(["p", "settings.yaml"], "airflow_version: 2.7.0")]⟩, fun _ => [],
    fun _ => 1, fun _ => 1⟩

/-- Claim C8 (code bug evaluation): the guard of `build` tests
`project_path / SETTINGS_FILENAME` instead of the `--settings-file` path its
own error message names, so with the option pointing at a missing file while
`project_path/settings.yaml` exists, `build` passes the guard and
`open(settings_file)` raises an uncaught `FileNotFoundError` rather than the
reported exit-1 "Settings file not found". -/
theorem C8_build_missing_settings_file_crashes :
    mismatchedSettingsWorld.fs.readText ["q", "settings.yaml"] = none ∧
    build ["p"] ["q", "settings.yaml"] ["v"] false mismatchedSettingsWorld
      = ([], Outcome.pyError "FileNotFoundError") :=
  ⟨rfl, rfl⟩

end Airflowctl
